import Mathlib

/-!
Verification development for the customer-management Lambda
(`src/lambda/customer_api.py`).

The embedding models the module's two components:

* `CustomerService` — `create_customer` and `list_customers`;
* `lambda_handler` — the dispatcher (CORS preflight, path normalization,
  routing, top-level exception mapping).

Python dynamic values that flow through `json.loads` / `json.dumps` and the
customer-record dictionary are modelled by `PyVal`.  Python exceptions are
modelled by `PyErr` carried in `Except`; an `Except.error` that survives
`lambda_handler` models an exception escaping the handler (an unhandled
fault).  External effects (the `TTL_DAYS` environment variable, the two
`datetime.now()` reads, the `datetime.utcnow().timestamp()` read, the
DynamoDB `put_item`/`scan` outcomes and the SSM parameter lookup) are
supplied through an explicit `Env` record; the traces of `put_item` and
`scan` requests are returned alongside the responses so that theorems can
speak about what was sent to the store.
-/

/-- Python/JSON values: the payloads of `json.loads`, `json.dumps` and the
customer-record dictionary.  Floats keep their source text: no control flow
in the program depends on float arithmetic, only on the value's type. -/
inductive PyVal where
  | str (s : String)
  | int (n : Int)
  | float (raw : String)
  | bool (b : Bool)
  | none
  | list (xs : List PyVal)
  | dict (kvs : List (String × PyVal))

/-- The Python exceptions that can arise in this module.  `valueError`
covers `ValueError` and its subclass `json.JSONDecodeError`; `clientError`
is botocore's `ClientError` (the store/config failure), carrying the
underlying error detail; `typeError` and `attributeError` are the
uncaught-by-this-code exceptions raised by operations on values of the
wrong type. -/
inductive PyErr where
  | valueError (msg : String)
  | clientError (msg : String)
  | typeError
  | attributeError
deriving DecidableEq

/-- Does the character list `cs` start with the pattern `ps`? -/
def charsStartWith : List Char → List Char → Bool
  | _, [] => true
  | [], _ :: _ => false
  | c :: cs, p :: ps => c = p && charsStartWith cs ps

/-- Python `pat in hay` for strings: substring test. -/
def hasSubstr (hay pat : List Char) : Bool :=
  charsStartWith hay pat ||
    match hay with
    | [] => false
    | _ :: t => hasSubstr t pat

/-- Python `s.startswith(pre)`. -/
def strStartsWith (s pre : String) : Bool :=
  charsStartWith s.data pre.data

/-- Full split of a character list at a separator character
(Python `s.split(sep)` for a one-character separator). -/
def splitFull (sep : Char) : List Char → List (List Char)
  | [] => [[]]
  | c :: rest =>
    let r := splitFull sep rest
    if c = sep then [] :: r
    else
      match r with
      | h :: t => (c :: h) :: t
      | [] => [[c]]

/-- Join a list of strings with a separator (Python `sep.join(xs)`). -/
def joinSep (sep : String) : List String → String
  | [] => ""
  | [s] => s
  | s :: rest => s ++ sep ++ joinSep sep rest

/-- Python `path.split('/', 2)`: at most two splits, the remainder is kept
joined. -/
def pySplitSlash2 (s : String) : List String :=
  match splitFull '/' s.data with
  | a :: b :: c :: rest =>
      [String.mk a, String.mk b, joinSep "/" ((c :: rest).map String.mk)]
  | xs => xs.map String.mk

/-- Whitespace stripped by Python `int(str)`: space, tab, newline, carriage
return, vertical tab, form feed. -/
def isPySpace (c : Char) : Bool :=
  c = ' ' || c = '\t' || c = '\n' || c = '\r' || c = '\x0b' || c = '\x0c'

/-- Drop leading Python whitespace. -/
def dropPySpace : List Char → List Char
  | [] => []
  | c :: rest => if isPySpace c then dropPySpace rest else c :: rest

/-- Digit-run value for Python `int(str)`: a nonempty digit sequence in
which single underscores may separate digits (no leading, trailing or
doubled underscore).  Models CPython's decimal integer grammar; non-ASCII
digits are not modelled. -/
def pyDigitsAux : Nat → List Char → Option Nat
  | acc, [] => some acc
  | acc, c :: cs =>
    if c.isDigit then pyDigitsAux (10 * acc + (c.toNat - 48)) cs
    else if c = '_' then
      match cs with
      | d :: _ => if d.isDigit then pyDigitsAux acc cs else Option.none
      | [] => Option.none
    else Option.none

/-- See `pyDigitsAux`: requires a leading digit. -/
def pyDigits : List Char → Option Nat
  | [] => Option.none
  | c :: cs => if c.isDigit then pyDigitsAux (c.toNat - 48) cs else Option.none

/-- Python `int(s)` on a string: optional surrounding whitespace, optional
single sign, decimal digits (with underscore grouping).  `Option.none`
models the `ValueError` raise. -/
def pyInt (s : String) : Option Int :=
  let cs := (dropPySpace (dropPySpace s.data.reverse).reverse)
  match cs with
  | '+' :: rest => (pyDigits rest).map Int.ofNat
  | '-' :: rest => (pyDigits rest).map (fun n => -(n : Int))
  | rest => (pyDigits rest).map Int.ofNat

/-- Decimal digit characters of a natural number (fueled so that the
definition is structural and kernel-reducible). -/
def natStrAux : Nat → Nat → List Char
  | 0, _ => []
  | fuel + 1, n =>
    if n < 10 then [Nat.digitChar n]
    else natStrAux fuel (n / 10) ++ [Nat.digitChar (n % 10)]

/-- Decimal representation of a natural number. -/
def natStr (n : Nat) : String := String.mk (natStrAux (n + 1) n)

/-- Decimal representation of an integer (Python `json.dumps` on `int`). -/
def intStr (n : Int) : String :=
  if n < 0 then "-" ++ natStr (-n).toNat else natStr n.toNat

/-- Four lowercase hex digits, for `\uXXXX` escapes. -/
def hex4 (n : Nat) : List Char :=
  [Nat.digitChar (n / 4096 % 16), Nat.digitChar (n / 256 % 16),
   Nat.digitChar (n / 16 % 16), Nat.digitChar (n % 16)]

/-- Escape one character the way `json.dumps` (default `ensure_ascii=True`)
does inside a string literal. -/
def jsonEscChar (c : Char) : List Char :=
  if c = '"' then ['\\', '"']
  else if c = '\\' then ['\\', '\\']
  else if c = '\n' then ['\\', 'n']
  else if c = '\r' then ['\\', 'r']
  else if c = '\t' then ['\\', 't']
  else if c = '\x08' then ['\\', 'b']
  else if c = '\x0c' then ['\\', 'f']
  else if c.toNat < 0x20 then '\\' :: 'u' :: hex4 c.toNat
  else if c.toNat ≤ 0x7f then [c]
  else if c.toNat < 0x10000 then '\\' :: 'u' :: hex4 c.toNat
  else
    let v := c.toNat - 0x10000
    ('\\' :: 'u' :: hex4 (0xd800 + v / 0x400)) ++
      ('\\' :: 'u' :: hex4 (0xdc00 + v % 0x400))

/-- `json.dumps` of a string: quoted, escaped. -/
def jsonQuote (s : String) : String :=
  "\"" ++ String.mk (List.flatten (s.data.map jsonEscChar)) ++ "\""

mutual

/-- `json.dumps` with default options: item separator `", "`, key
separator `": "`, `ensure_ascii` escaping. -/
def jsonDumps : PyVal → String
  | .str s => jsonQuote s
  | .int n => intStr n
  | .float raw => raw
  | .bool b => if b then "true" else "false"
  | .none => "null"
  | .list xs => "[" ++ jsonDumpsList xs ++ "]"
  | .dict kvs => "\x7b" ++ jsonDumpsKvs kvs ++ "\x7d"

/-- Comma-space–joined dumps of array elements. -/
def jsonDumpsList : List PyVal → String
  | [] => ""
  | [v] => jsonDumps v
  | v :: w :: rest => jsonDumps v ++ ", " ++ jsonDumpsList (w :: rest)

/-- Comma-space–joined dumps of object members. -/
def jsonDumpsKvs : List (String × PyVal) → String
  | [] => ""
  | [(k, v)] => jsonQuote k ++ ": " ++ jsonDumps v
  | (k, v) :: kv :: rest =>
      jsonQuote k ++ ": " ++ jsonDumps v ++ ", " ++ jsonDumpsKvs (kv :: rest)

end

/-- Key membership in a Python dict (insertion-ordered association list). -/
def containsKey (kvs : List (String × PyVal)) (k : String) : Bool :=
  kvs.any (fun kv => kv.1 == k)

/-- First (and, for a genuine Python dict, only) value stored under `k`. -/
def dictGet (kvs : List (String × PyVal)) (k : String) : Option PyVal :=
  match kvs with
  | [] => Option.none
  | (k', v) :: rest => if k' == k then some v else dictGet rest k

/-- Python `d[k] = v`: update the value in place if the key exists (its
position is kept), otherwise append the new pair. -/
def setKV (kvs : List (String × PyVal)) (k : String) (v : PyVal) :
    List (String × PyVal) :=
  match kvs with
  | [] => [(k, v)]
  | (k', v') :: rest =>
    if k' == k then (k', v) :: rest else (k', v') :: setKV rest k v

/-- Python `d.update(upd)`: `d[k] = v` for each pair of `upd` in order. -/
def dictUpdate (kvs upd : List (String × PyVal)) : List (String × PyVal) :=
  upd.foldl (fun acc kv => setKV acc kv.1 kv.2) kvs

/-- JSON whitespace accepted between tokens by `json.loads`. -/
def jsonWsDrop : List Char → List Char
  | [] => []
  | c :: rest =>
    if c = ' ' || c = '\t' || c = '\n' || c = '\r' then jsonWsDrop rest
    else c :: rest

/-- Value of one hex digit. -/
def hexVal (c : Char) : Option Nat :=
  if '0' ≤ c ∧ c ≤ '9' then some (c.toNat - 48)
  else if 'a' ≤ c ∧ c ≤ 'f' then some (c.toNat - 87)
  else if 'A' ≤ c ∧ c ≤ 'F' then some (c.toNat - 55)
  else Option.none

/-- The `ValueError` raised on malformed JSON.  CPython's
`json.JSONDecodeError` messages vary with the failure position; the
dispatcher only logs that message and answers with a fixed body, so a
fixed message is used here. -/
def jsonErr : PyErr := .valueError "Invalid JSON"

/-- String-literal body after the opening quote: returns the decoded
characters and the input after the closing quote.  Escapes follow
`json.loads`: the eight short escapes, `\\uXXXX`, and surrogate-pair
combination.  A lone surrogate is not representable as a Lean `Char` and
is mapped through `Char.ofNat`'s fallback; no claim exercises this case.
Raw control characters are rejected (default strict mode).  `Option.none`
throughout the lexing functions models the `json.JSONDecodeError` raise,
always surfaced by `jsonLoads` as `jsonErr`. -/
def parseJStr : Nat → List Char → Option (List Char × List Char)
  | 0, _ => Option.none
  | fuel + 1, cs =>
    match cs with
    | [] => Option.none
    | '"' :: rest => some ([], rest)
    | '\\' :: esc =>
      let step := fun (c : Char) (r : List Char) =>
        (parseJStr fuel r).map (fun p => (c :: p.1, p.2))
      match esc with
      | '"' :: r => step '"' r
      | '\\' :: r => step '\\' r
      | '/' :: r => step '/' r
      | 'b' :: r => step '\x08' r
      | 'f' :: r => step '\x0c' r
      | 'n' :: r => step '\n' r
      | 'r' :: r => step '\r' r
      | 't' :: r => step '\t' r
      | 'u' :: h1 :: h2 :: h3 :: h4 :: r =>
        match hexVal h1, hexVal h2, hexVal h3, hexVal h4 with
        | some a, some b, some c, some d =>
          let code := 4096 * a + 256 * b + 16 * c + d
          if 0xd800 ≤ code ∧ code ≤ 0xdbff then
            match r with
            | '\\' :: 'u' :: g1 :: g2 :: g3 :: g4 :: r2 =>
              match hexVal g1, hexVal g2, hexVal g3, hexVal g4 with
              | some e1, some e2, some e3, some e4 =>
                let low := 4096 * e1 + 256 * e2 + 16 * e3 + e4
                if 0xdc00 ≤ low ∧ low ≤ 0xdfff then
                  step (Char.ofNat
                    (0x10000 + (code - 0xd800) * 0x400 + (low - 0xdc00))) r2
                else step (Char.ofNat code) r
              | _, _, _, _ => step (Char.ofNat code) r
            | _ => step (Char.ofNat code) r
          else step (Char.ofNat code) r
        | _, _, _, _ => Option.none
      | _ => Option.none
    | c :: rest =>
      if c.toNat < 0x20 then Option.none
      else (parseJStr fuel rest).map (fun p => (c :: p.1, p.2))

/-- Longest digit run at the front of the input. -/
def spanDigits : List Char → List Char × List Char
  | [] => ([], [])
  | c :: rest =>
    if c.isDigit then
      let p := spanDigits rest
      (c :: p.1, p.2)
    else ([], c :: rest)

/-- Value of a digit run. -/
def digitsToNat (ds : List Char) : Nat :=
  ds.foldl (fun a c => 10 * a + (c.toNat - 48)) 0

/-- Does an exponent marker start here? -/
def hasExpHead : List Char → Bool
  | c :: _ => c = 'e' || c = 'E'
  | [] => false

/-- Exponent part `[eE][+-]?digits`; returns the consumed characters and
the remaining input. -/
def parseJExp (cs : List Char) : Option (List Char × List Char) :=
  match cs with
  | c :: r =>
    if c = 'e' || c = 'E' then
      let sgnC : List Char := match r with
        | '+' :: _ => ['+']
        | '-' :: _ => ['-']
        | _ => []
      let r2 := match r with
        | '+' :: rr => rr
        | '-' :: rr => rr
        | _ => r
      match spanDigits r2 with
      | ([], _) => Option.none
      | (eds, rest) => some (c :: (sgnC ++ eds), rest)
    else Option.none
  | [] => Option.none

/-- JSON number: an integer becomes `PyVal.int`; a fraction or exponent
makes it a float, whose consumed source text is kept.  Leading zeros are
rejected as in `json.loads`. -/
def parseJNum (cs : List Char) : Option (PyVal × List Char) :=
  let sgn : List Char := match cs with
    | '-' :: _ => ['-']
    | _ => []
  let cs1 := match cs with
    | '-' :: r => r
    | _ => cs
  match spanDigits cs1 with
  | ([], _) => Option.none
  | (ds, rest) =>
    if 1 < ds.length ∧ ds.head? = some '0' then Option.none
    else
      match rest with
      | '.' :: r2 =>
        match spanDigits r2 with
        | ([], _) => Option.none
        | (fds, rest2) =>
          if hasExpHead rest2 then
            match parseJExp rest2 with
            | some (ecs, rest3) =>
                some (.float (String.mk (sgn ++ ds ++ '.' :: fds ++ ecs)), rest3)
            | Option.none => Option.none
          else some (.float (String.mk (sgn ++ ds ++ '.' :: fds)), rest2)
      | _ =>
        if hasExpHead rest then
          match parseJExp rest with
          | some (ecs, rest3) =>
              some (.float (String.mk (sgn ++ ds ++ ecs)), rest3)
          | Option.none => Option.none
        else
          some (.int (if sgn = [] then (digitsToNat ds : Int)
                      else -(digitsToNat ds : Int)), rest)

mutual

/-- One JSON value (with leading whitespace), fueled: `json.loads`'s
recursive-descent core.  `NaN`/`Infinity`/`-Infinity` are accepted as by
default `json.loads`. -/
def parseJVal : Nat → List Char → Option (PyVal × List Char)
  | 0, _ => Option.none
  | fuel + 1, cs =>
    match jsonWsDrop cs with
    | 'n' :: 'u' :: 'l' :: 'l' :: rest => some (.none, rest)
    | 't' :: 'r' :: 'u' :: 'e' :: rest => some (.bool true, rest)
    | 'f' :: 'a' :: 'l' :: 's' :: 'e' :: rest => some (.bool false, rest)
    | 'N' :: 'a' :: 'N' :: rest => some (.float "NaN", rest)
    | 'I' :: 'n' :: 'f' :: 'i' :: 'n' :: 'i' :: 't' :: 'y' :: rest =>
        some (.float "Infinity", rest)
    | '-' :: 'I' :: 'n' :: 'f' :: 'i' :: 'n' :: 'i' :: 't' :: 'y' :: rest =>
        some (.float "-Infinity", rest)
    | '"' :: rest =>
        (parseJStr fuel rest).map (fun p => (.str (String.mk p.1), p.2))
    | '[' :: rest =>
      match jsonWsDrop rest with
      | ']' :: rest2 => some (.list [], rest2)
      | rest2 => parseJArr fuel rest2 []
    | '\x7b' :: rest =>
      match jsonWsDrop rest with
      | '\x7d' :: rest2 => some (.dict [], rest2)
      | rest2 => parseJObj fuel rest2 []
    | cs2 => parseJNum cs2

/-- Array elements after the opening bracket (nonempty case). -/
def parseJArr : Nat → List Char → List PyVal → Option (PyVal × List Char)
  | 0, _, _ => Option.none
  | fuel + 1, cs, acc =>
    match parseJVal fuel cs with
    | Option.none => Option.none
    | some (v, rest) =>
      match jsonWsDrop rest with
      | ',' :: rest2 => parseJArr fuel rest2 (acc ++ [v])
      | ']' :: rest2 => some (.list (acc ++ [v]), rest2)
      | _ => Option.none

/-- Object members after the opening brace (nonempty case).  A repeated
key overwrites the earlier value in place, as in a Python dict literal. -/
def parseJObj : Nat → List Char → List (String × PyVal) →
    Option (PyVal × List Char)
  | 0, _, _ => Option.none
  | fuel + 1, cs, acc =>
    match jsonWsDrop cs with
    | '"' :: rest =>
      match parseJStr fuel rest with
      | Option.none => Option.none
      | some (kcs, rest2) =>
        match jsonWsDrop rest2 with
        | ':' :: rest3 =>
          match parseJVal fuel rest3 with
          | Option.none => Option.none
          | some (v, rest4) =>
            let acc2 := setKV acc (String.mk kcs) v
            match jsonWsDrop rest4 with
            | ',' :: rest5 => parseJObj fuel rest5 acc2
            | '\x7d' :: rest5 => some (.dict acc2, rest5)
            | _ => Option.none
        | _ => Option.none
    | _ => Option.none

end

/-- Python `json.loads`: parse one document, then require only trailing
whitespace.  The fuel `length + 1` suffices because every recursive call
is preceded by the consumption of at least one character.  Every failure
raises `jsonErr`, a `ValueError`, exactly as `json.JSONDecodeError` is a
`ValueError` subclass. -/
def jsonLoads (s : String) : Except PyErr PyVal :=
  match parseJVal (s.data.length + 1) s.data with
  | Option.none => .error jsonErr
  | some (v, rest) =>
    match jsonWsDrop rest with
    | [] => .ok v
    | _ => .error jsonErr

/-- A `datetime.datetime` at second granularity (the program uses neither
microseconds nor time zones of the value itself).  `datetime` guarantees
`1 <= year <= 9999` (`MINYEAR`/`MAXYEAR`) and calendar-valid fields; see
`DateTime.Valid`. -/
structure DateTime where
  year : Nat
  month : Nat
  day : Nat
  hour : Nat
  minute : Nat
  second : Nat
deriving DecidableEq

/-- The field ranges every `datetime.datetime` value satisfies. -/
def DateTime.Valid (dt : DateTime) : Prop :=
  1 ≤ dt.year ∧ dt.year ≤ 9999 ∧ 1 ≤ dt.month ∧ dt.month ≤ 12 ∧
    1 ≤ dt.day ∧ dt.day ≤ 31 ∧ dt.hour ≤ 23 ∧ dt.minute ≤ 59 ∧ dt.second ≤ 59

instance (dt : DateTime) : Decidable dt.Valid := by
  unfold DateTime.Valid; infer_instance

/-- Zero-padded two-digit `strftime` field (`%m`, `%d`, `%H`, `%M`, `%S`);
every representable `datetime` keeps these fields below 100, where this
agrees with `%02d`. -/
def pad2 (n : Nat) : String :=
  String.mk [Nat.digitChar (n / 10 % 10), Nat.digitChar (n % 10)]

/-- Zero-padded four-digit `%Y` field; every representable `datetime`
keeps the year at most 9999, where this agrees with `%04d`. -/
def pad4 (n : Nat) : String :=
  String.mk [Nat.digitChar (n / 1000 % 10), Nat.digitChar (n / 100 % 10),
    Nat.digitChar (n / 10 % 10), Nat.digitChar (n % 10)]

/-- `datetime.now().strftime('%Y%m%d%H%M%S')`. -/
def strftimeStamp (dt : DateTime) : String :=
  pad4 dt.year ++ pad2 dt.month ++ pad2 dt.day ++ pad2 dt.hour ++
    pad2 dt.minute ++ pad2 dt.second

/-- `datetime.now().isoformat()` at second granularity (the source value's
microsecond suffix plays no role in any property: the string is only
stored). -/
def isoformat (dt : DateTime) : String :=
  pad4 dt.year ++ "-" ++ pad2 dt.month ++ "-" ++ pad2 dt.day ++ "T" ++
    pad2 dt.hour ++ ":" ++ pad2 dt.minute ++ ":" ++ pad2 dt.second

/-- One invocation's external effects.

* `ttlEnv` — `os.getenv('TTL_DAYS')`;
* `utcNowSec` — the integer part of `datetime.utcnow().timestamp()`, read
  when the expiration is computed (on a UTC host this is the Unix epoch
  second; truncation toward zero equals the floor for the positive times
  involved);
* `nowStamp`, `nowIso` — the two separate `datetime.now()` reads used for
  `customer_id` and `created_at`;
* `putResult` — outcome of `table.put_item` (`Except.error` carries the
  `ClientError` detail);
* `scanItems` — outcome of `table.scan` (`Items`, defaulting to `[]`, or a
  `ClientError` detail);
* `ssmTable` — outcome of the SSM parameter lookup of the table name. -/
structure Env where
  ttlEnv : Option String
  utcNowSec : Int
  nowStamp : DateTime
  nowIso : DateTime
  putResult : Except String Unit
  scanItems : Except String (List PyVal)
  ssmTable : Except String String

/-- Python `needle in v` for a string needle: key membership for a dict,
substring for a string, element equality for a list (a string never equals
a non-string element), `TypeError` otherwise. -/
def pyIn (needle : String) (v : PyVal) : Except PyErr Bool :=
  match v with
  | .dict kvs => .ok (containsKey kvs needle)
  | .str s => .ok (hasSubstr s.data needle.data)
  | .list xs =>
      .ok (xs.any (fun x =>
        match x with
        | .str s => s == needle
        | _ => false))
  | _ => .error .typeError

/-- `required_fields` of `create_customer`. -/
def requiredFields : List String := ["name", "email", "company"]

/-- The list comprehension
`[field for field in required_fields if field not in customer_data]`,
evaluating the memberships left to right (the first `TypeError` aborts). -/
def missingOf : List String → PyVal → Except PyErr (List String)
  | [], _ => .ok []
  | f :: fs, d =>
    match pyIn f d with
    | .error e => .error e
    | .ok b =>
      match missingOf fs d with
      | .error e => .error e
      | .ok rest => .ok (if b then rest else f :: rest)

/-- The `ttl_days` computation: `0` when `TTL_DAYS` is unset, otherwise
`max(0, int(TTL_DAYS))`, with any conversion failure giving `0`. -/
def ttlDaysOf (env : Env) : Int :=
  match env.ttlEnv with
  | Option.none => 0
  | some s =>
    match pyInt s with
    | some n => max 0 n
    | Option.none => 0

/-- The optional `expires_at` value:
`int(datetime.utcnow().timestamp() + ttl_days * 86400)` when
`ttl_days > 0`. -/
def expiresAtOf (env : Env) : Option Int :=
  if 0 < ttlDaysOf env then some (env.utcNowSec + ttlDaysOf env * 86400)
  else Option.none

/-- The generated identifier
`f"cust_{datetime.now().strftime('%Y%m%d%H%M%S')}"`. -/
def custId (dt : DateTime) : String := "cust_" ++ strftimeStamp dt

/-- The metadata passed to `customer_data.update(...)`. -/
def metaFields (env : Env) : List (String × PyVal) :=
  [("customer_id", .str (custId env.nowStamp)),
   ("created_at", .str (isoformat env.nowIso)),
   ("status", .str "active")]

/-- `customer_data['expires_at'] = expires_at`, performed only when an
expiration was computed. -/
def applyExpires (env : Env) (item : List (String × PyVal)) :
    List (String × PyVal) :=
  match expiresAtOf env with
  | some e => setKV item "expires_at" (.int e)
  | Option.none => item

/-- Python `v.update(upd)`: succeeds only on a dict; every other value of
this model lacks an `update` attribute (`AttributeError`). -/
def pyUpdate (v : PyVal) (upd : List (String × PyVal)) :
    Except PyErr (List (String × PyVal)) :=
  match v with
  | .dict kvs => .ok (dictUpdate kvs upd)
  | _ => .error .attributeError

/-- The response envelope `{statusCode, headers, body}`; the service
functions return it without a `headers` key, the dispatcher fills it in. -/
structure HResponse where
  statusCode : Nat
  headers : Option (List (String × String))
  body : Option String
deriving DecidableEq

/-- A record as sent to `put_item`. -/
abbrev Item := List (String × PyVal)

/-- The 201 body:
`json.dumps({'message': ..., 'customer_id': customer_data['customer_id']})`
(the key was set by the update just before, so the lookup cannot miss). -/
def successBody (item : Item) : String :=
  jsonDumps (.dict [("message", .str "Customer created successfully"),
    ("customer_id", (dictGet item "customer_id").getD .none)])

/-- Body of `CustomerService.create_customer`'s `try` block.  The returned
list is the trace of successful `put_item` calls. -/
def create_customer_core (env : Env) (customer_data : PyVal) :
    Except PyErr (HResponse × List Item) :=
  match missingOf requiredFields customer_data with
  | .error e => .error e
  | .ok missing_fields =>
    match missing_fields with
    | f :: fs =>
      .error (.valueError
        ("Missing required fields: " ++ joinSep ", " (f :: fs)))
    | [] =>
      match pyUpdate customer_data (metaFields env) with
      | .error e => .error e
      | .ok updated =>
        let item := applyExpires env updated
        match env.putResult with
        | .error msg => .error (.clientError msg)
        | .ok _ => .ok (⟨201, Option.none, some (successBody item)⟩, [item])

/-- `CustomerService.create_customer`: the `try` body with its two
`except` clauses (`ValueError` → 400 with the message, `ClientError` →
500 with a generic body); any other exception propagates. -/
def create_customer (env : Env) (customer_data : PyVal) :
    Except PyErr (HResponse × List Item) :=
  match create_customer_core env customer_data with
  | .ok r => .ok r
  | .error (.valueError msg) =>
      .ok (⟨400, Option.none,
        some (jsonDumps (.dict [("error", .str msg)]))⟩, [])
  | .error (.clientError _) =>
      .ok (⟨500, Option.none,
        some (jsonDumps (.dict [("error", .str "Internal server error")]))⟩, [])
  | .error e => .error e

/-- `CustomerService.list_customers`: clamps the limit, performs one scan
(the second component is the trace of scan `Limit` values sent to the
store), answers 200 with count and items, or 500 on `ClientError`. -/
def list_customers (env : Env) (limit : Int) : HResponse × List Int :=
  let eff := max 1 (min limit 200)
  match env.scanItems with
  | .error _msg =>
      (⟨500, Option.none,
        some (jsonDumps (.dict [("error", .str "Internal server error")]))⟩,
       [eff])
  | .ok items =>
      (⟨200, Option.none,
        some (jsonDumps (.dict [("count", .int items.length),
          ("items", .list items)]))⟩,
       [eff])

/-- The inbound event fields the dispatcher consumes (spec section 6:
`httpMethod` string, `path` string, `queryStringParameters` mapping or
absent, `body` JSON-encoded string or absent). -/
structure Event where
  httpMethod : Option String
  path : Option String
  queryStringParameters : Option (List (String × String))
  body : Option String

/-- The fixed CORS headers. -/
def base_headers : List (String × String) :=
  [("Access-Control-Allow-Origin", "*"),
   ("Access-Control-Allow-Headers",
     "Content-Type,X-Amz-Date,Authorization,X-Api-Key"),
   ("Access-Control-Allow-Methods", "GET,POST,PUT,DELETE,OPTIONS")]

/-- `{**base_headers, 'Content-Type': 'application/json'}`. -/
def jsonHeaders : List (String × String) :=
  base_headers ++ [("Content-Type", "application/json")]

/-- `{**base_headers, 'Content-Type': 'text/html; charset=utf-8'}`. -/
def htmlHeaders : List (String × String) :=
  base_headers ++ [("Content-Type", "text/html; charset=utf-8")]

/-- The deployment-stage names stripped by path normalization. -/
def stageNames : List String := ["dev", "staging", "prod"]

/-- Path normalization: for a path starting with `/` whose
`split('/', 2)` has three parts with the middle one a stage name, keep
`'/' + parts[2]`; otherwise the path passes through. -/
def normalizePath (path : String) : String :=
  if strStartsWith path "/" then
    match pySplitSlash2 path with
    | [_p0, p1, rest] =>
        if stageNames.contains p1 then "/" ++ rest else path
    | _ => path
  else path

/-- `qs.get(k, dflt)` on the string-valued query mapping. -/
def qsGet (qs : List (String × String)) (k dflt : String) : String :=
  match qs with
  | [] => dflt
  | (k2, v) :: rest => if k2 == k then v else qsGet rest k dflt

/-- The inline demo page served on `GET` for non-customer paths.  The
source embeds a long static HTML document (styling and script included);
its content is inert for every property here — the spec tests only
"status 200, HTML content type, non-empty body" — so the literal is
abbreviated to a skeleton of the document. -/
def demoHtml : String :=
  "\n<!doctype html>\n<html lang=\"en\">\n<head><meta charset=\"utf-8\"/>" ++
  "<title>Customer API Demo</title></head>\n<body>" ++
  "<h2>Customer API Demo</h2>" ++
  "<p>Use this page to create and list customers.</p>" ++
  "</body>\n</html>\n"

/-- Body of `lambda_handler`'s `try` block: read the event fields with
their defaults, normalize the path, resolve the table name (before any
routing — a config failure raises `ClientError` here), then route:
CORS preflight, create, list, demo page, 405 fallback. -/
def handlerCore (env : Env) (event : Event) : Except PyErr HResponse :=
  let http_method := event.httpMethod.getD ""
  let path := event.path.getD "/"
  let norm_path := normalizePath path
  let qs := event.queryStringParameters.getD []
  match env.ssmTable with
  | .error msg => .error (.clientError msg)
  | .ok _table_name =>
    if http_method = "OPTIONS" then
      .ok ⟨200, some base_headers, Option.none⟩
    else if http_method = "POST" ∧ strStartsWith norm_path "/customers" then
      match jsonLoads (event.body.getD "\x7b\x7d") with
      | .error e => .error e
      | .ok body =>
        match create_customer env body with
        | .error e => .error e
        | .ok (result, _puts) => .ok { result with headers := some jsonHeaders }
    else if http_method = "GET" ∧ strStartsWith norm_path "/customers" then
      let limit : Int := (pyInt (qsGet qs "limit" "50")).getD 50
      let result := (list_customers env limit).1
      .ok { result with headers := some jsonHeaders }
    else if http_method = "GET" then
      .ok ⟨200, some htmlHeaders, some demoHtml⟩
    else
      .ok ⟨405, some jsonHeaders,
        some (jsonDumps (.dict [("error", .str "Method not allowed")]))⟩

/-- `lambda_handler`: the `try` body with the two top-level `except`
clauses (`ValueError` → 400 `Bad request`, `ClientError` → 500
`Internal server error`).  Any other exception escapes the handler:
a surviving `Except.error` models the unhandled fault. -/
def lambda_handler (env : Env) (event : Event) : Except PyErr HResponse :=
  match handlerCore env event with
  | .ok r => .ok r
  | .error (.valueError _) =>
      .ok ⟨400, some jsonHeaders,
        some (jsonDumps (.dict [("error", .str "Bad request")]))⟩
  | .error (.clientError _) =>
      .ok ⟨500, some jsonHeaders,
        some (jsonDumps (.dict [("error", .str "Internal server error")]))⟩
  | .error e => .error e

/-- A representative clock value. -/
def dt2025 : DateTime := ⟨2025, 3, 14, 15, 9, 26⟩

/-- A benign environment: no TTL configured, both store operations and the
config lookup succeed. -/
def env0 : Env :=
  ⟨Option.none, 1700000000, dt2025, dt2025, .ok (), .ok [], .ok "customers-table"⟩

/-- A complete customer record as sent by a caller. -/
def sampleData : List (String × PyVal) :=
  [("name", .str "Ada Lovelace"), ("email", .str "ada@example.com"),
   ("company", .str "Analytical Engines")]

/-- The absent required fields of an input dict, in `required_fields`
order: the value of the validation comprehension. -/
def missingFieldsOf (kvs : Item) : List String :=
  requiredFields.filter (fun f => !(containsKey kvs f))

/-- The 201 body text determined by the identifier clock read. -/
def createdBody (env : Env) : String :=
  jsonDumps (.dict [("message", .str "Customer created successfully"),
    ("customer_id", .str (custId env.nowStamp))])

/-- The record put by `create_customer` on `sampleData` when one TTL day
is configured over `env0`'s clocks: the three metadata fields and the
computed expiration. -/
def cexPutItem : Item :=
  [("name", .str "Ada Lovelace"), ("email", .str "ada@example.com"),
   ("company", .str "Analytical Engines"),
   ("customer_id", .str "cust_20250314150926"),
   ("created_at", .str "2025-03-14T15:09:26"),
   ("status", .str "active"), ("expires_at", .int 1700086400)]

/-- A valid input that itself carries an `expires_at` key. -/
def expData : Item := sampleData ++ [("expires_at", .int 5)]

/-- The record put by `create_customer` on `expData` under `env0` (no TTL
configured): the caller's `expires_at` survives. -/
def expPutItem : Item :=
  expData ++
    [("customer_id", .str "cust_20250314150926"),
     ("created_at", .str "2025-03-14T15:09:26"),
     ("status", .str "active")]

theorem missingOf_dict (fs : List String) (kvs : Item) :
    missingOf fs (.dict kvs) =
      .ok (fs.filter (fun f => !(containsKey kvs f))) := by
  induction fs with
  | nil => rfl
  | cons f fs ih =>
      simp only [missingOf, pyIn, ih, List.filter]
      cases h : containsKey kvs f <;> simp [h]

theorem containsKey_setKV (l : Item) (k k2 : String) (v : PyVal) :
    containsKey (setKV l k v) k2 = (containsKey l k2 || k == k2) := by
  induction l with
  | nil => simp [setKV, containsKey]
  | cons kv rest ih =>
      obtain ⟨k1, v1⟩ := kv
      simp only [setKV]
      cases hh : (k1 == k) with
      | true =>
          have hk : k1 = k := by simpa using hh
          subst hk
          simp only [containsKey, List.any] at *
          cases hc : (k1 == k2) <;> simp [hc]
      | false =>
          simp only [containsKey, List.any] at *
          cases hc : (k1 == k2) <;> simp [hc, ih, containsKey]

theorem dictGet_setKV_self (l : Item) (k : String) (v : PyVal) :
    dictGet (setKV l k v) k = some v := by
  induction l with
  | nil => simp [setKV, dictGet]
  | cons kv rest ih =>
      obtain ⟨k1, v1⟩ := kv
      simp only [setKV]
      cases hh : (k1 == k) with
      | true => simp [dictGet, hh]
      | false => simp [dictGet, hh, ih]

theorem dictGet_setKV_ne (l : Item) (k k2 : String) (v : PyVal)
    (h : (k == k2) = false) :
    dictGet (setKV l k v) k2 = dictGet l k2 := by
  induction l with
  | nil => simp [setKV, dictGet, h]
  | cons kv rest ih =>
      obtain ⟨k1, v1⟩ := kv
      simp only [setKV]
      cases hh : (k1 == k) with
      | true =>
          have hk : k1 = k := by simpa using hh
          subst hk
          simp [dictGet, h]
      | false => simp [dictGet, ih]

theorem dictUpdate_meta (env : Env) (kvs : Item) :
    dictUpdate kvs (metaFields env) =
      setKV (setKV (setKV kvs "customer_id" (.str (custId env.nowStamp)))
        "created_at" (.str (isoformat env.nowIso))) "status" (.str "active") :=
  rfl

theorem dictGet_item_custId (env : Env) (kvs : Item) :
    dictGet (applyExpires env (dictUpdate kvs (metaFields env)))
        "customer_id" = some (.str (custId env.nowStamp)) := by
  unfold applyExpires
  cases expiresAtOf env with
  | none =>
      rw [dictUpdate_meta, dictGet_setKV_ne _ _ _ _ (by decide),
        dictGet_setKV_ne _ _ _ _ (by decide), dictGet_setKV_self]
  | some e =>
      rw [dictUpdate_meta, dictGet_setKV_ne _ _ _ _ (by decide),
        dictGet_setKV_ne _ _ _ _ (by decide),
        dictGet_setKV_ne _ _ _ _ (by decide), dictGet_setKV_self]

theorem containsKey_update_meta (env : Env) (kvs : Item) (k : String)
    (hk1 : ("customer_id" == k) = false) (hk2 : ("created_at" == k) = false)
    (hk3 : ("status" == k) = false) :
    containsKey (dictUpdate kvs (metaFields env)) k = containsKey kvs k := by
  rw [dictUpdate_meta, containsKey_setKV, containsKey_setKV, containsKey_setKV,
    hk1, hk2, hk3]
  simp

theorem missingFieldsOf_nil (kvs : Item)
    (h1 : containsKey kvs "name" = true) (h2 : containsKey kvs "email" = true)
    (h3 : containsKey kvs "company" = true) : missingFieldsOf kvs = [] := by
  simp [missingFieldsOf, requiredFields, List.filter, h1, h2, h3]

theorem create_valid_eq (env : Env) (kvs : Item)
    (h1 : containsKey kvs "name" = true) (h2 : containsKey kvs "email" = true)
    (h3 : containsKey kvs "company" = true) (hput : env.putResult = .ok ()) :
    create_customer env (.dict kvs) =
      .ok (⟨201, Option.none,
        some (successBody (applyExpires env (dictUpdate kvs (metaFields env))))⟩,
        [applyExpires env (dictUpdate kvs (metaFields env))]) := by
  unfold create_customer create_customer_core
  rw [missingOf_dict]
  have hm : requiredFields.filter (fun f => !(containsKey kvs f)) = [] :=
    missingFieldsOf_nil kvs h1 h2 h3
  rw [hm]
  simp [pyUpdate, hput]

theorem successBody_custId (env : Env) (kvs : Item) :
    successBody (applyExpires env (dictUpdate kvs (metaFields env))) =
      createdBody env := by
  unfold successBody createdBody
  rw [dictGet_item_custId]
  rfl

theorem create_put_error (env : Env) (kvs : Item) (msg : String)
    (h1 : containsKey kvs "name" = true) (h2 : containsKey kvs "email" = true)
    (h3 : containsKey kvs "company" = true)
    (hput : env.putResult = .error msg) :
    create_customer env (.dict kvs) =
      .ok (⟨500, Option.none,
        some (jsonDumps (.dict [("error", .str "Internal server error")]))⟩,
        []) := by
  unfold create_customer create_customer_core
  rw [missingOf_dict]
  have hm : requiredFields.filter (fun f => !(containsKey kvs f)) = [] :=
    missingFieldsOf_nil kvs h1 h2 h3
  rw [hm]
  simp [pyUpdate, hput]

theorem list_scan_error (env : Env) (msg : String) (limit : Int)
    (hscan : env.scanItems = .error msg) :
    list_customers env limit =
      (⟨500, Option.none,
        some (jsonDumps (.dict [("error", .str "Internal server error")]))⟩,
       [max 1 (min limit 200)]) := by
  unfold list_customers
  rw [hscan]

theorem digitChar_mod_isDigit (x : Nat) :
    (Nat.digitChar (x % 10)).isDigit = true := by
  have hb : ∀ d, d < 10 → (Nat.digitChar d).isDigit = true := by decide
  exact hb _ (Nat.mod_lt _ (by norm_num))

theorem strftimeStamp_length (dt : DateTime) :
    (strftimeStamp dt).length = 14 := by
  simp [strftimeStamp, pad2, pad4, String.length_append, String.length]

theorem strftimeStamp_digits (dt : DateTime) :
    (strftimeStamp dt).data.all Char.isDigit = true := by
  simp [strftimeStamp, pad2, pad4, String.data_append, List.all_append,
    List.all, digitChar_mod_isDigit]

theorem create_dict_result (env : Env) (kvs : Item) :
    ∃ r ps, create_customer env (.dict kvs) = .ok (r, ps) ∧
      (r.statusCode = 201 ∨ r.statusCode = 400 ∨ r.statusCode = 500) := by
  unfold create_customer create_customer_core
  rw [missingOf_dict]
  by_cases hm : requiredFields.filter (fun f => !(containsKey kvs f)) = []
  · rw [hm]
    cases hput : env.putResult with
    | error m =>
        refine ⟨⟨500, Option.none,
          some (jsonDumps (.dict [("error", .str "Internal server error")]))⟩,
          [], ?_, Or.inr (Or.inr rfl)⟩
        simp [pyUpdate, hput]
    | ok u =>
        cases u
        refine ⟨⟨201, Option.none,
          some (successBody (applyExpires env (dictUpdate kvs (metaFields env))))⟩,
          [applyExpires env (dictUpdate kvs (metaFields env))], ?_, Or.inl rfl⟩
        simp [pyUpdate, hput]
  · obtain ⟨f, fs, hcons⟩ := List.exists_cons_of_ne_nil hm
    rw [hcons]
    refine ⟨⟨400, Option.none,
      some (jsonDumps (.dict [("error",
        .str ("Missing required fields: " ++ joinSep ", " (f :: fs)))]))⟩,
      [], rfl, Or.inr (Or.inl rfl)⟩

theorem list_status (env : Env) (limit : Int) :
    ((list_customers env limit).1).statusCode = 200 ∨
      ((list_customers env limit).1).statusCode = 500 := by
  cases h : env.scanItems <;> simp [list_customers, h]

/-- C1: for every input mapping in which at least one of the keys `name`,
`email`, `company` is absent (the values of present keys, empty strings
included, are irrelevant), create returns status 400 with a JSON body
whose `error` field reads `Missing required fields: ` followed by exactly
the absent field names joined by comma-space, and no put reaches the
store (the put trace is empty). -/
theorem create_missing_fields (env : Env) (kvs : Item)
    (h : containsKey kvs "name" = false ∨ containsKey kvs "email" = false ∨
      containsKey kvs "company" = false) :
    create_customer env (.dict kvs) =
      .ok (⟨400, Option.none,
        some (jsonDumps (.dict [("error",
          .str ("Missing required fields: " ++
            joinSep ", " (missingFieldsOf kvs)))]))⟩, []) := by
  have hne : requiredFields.filter (fun f => !(containsKey kvs f)) ≠ [] := by
    rcases h with h | h | h
    · simp [requiredFields, List.filter_cons, h]
    · cases hn : containsKey kvs "name" <;>
        simp [requiredFields, List.filter_cons, h, hn]
    · cases hn : containsKey kvs "name" <;> cases he : containsKey kvs "email" <;>
        simp [requiredFields, List.filter_cons, h, hn, he]
  unfold create_customer create_customer_core
  rw [missingOf_dict]
  obtain ⟨f, fs, hcons⟩ := List.exists_cons_of_ne_nil hne
  rw [hcons, show missingFieldsOf kvs = f :: fs from hcons]

/-- C1 witness: a record carrying only `name` gets a 400 listing `email`
and `company`, and nothing is put. -/
theorem create_missing_fields_witness :
    create_customer env0 (.dict [("name", .str "Grace")]) =
      .ok (⟨400, Option.none,
        some "\x7b\"error\": \"Missing required fields: email, company\"\x7d"⟩,
        []) := by
  have h := create_missing_fields env0 [("name", .str "Grace")]
    (Or.inr (Or.inl rfl))
  exact h

/-- C4: for every requested limit, the single scan issued by list uses the
limit clamped into the inclusive range `[1, 200]` — the value
`min (max l 1) 200`: `1` below the range, `200` above it, and the raw
value only when it already lies inside. -/
theorem list_clamps_limit (env : Env) (limit : Int) :
    (list_customers env limit).2 = [max 1 (min limit 200)] ∧
    max 1 (min limit 200) = min (max limit 1) 200 ∧
    1 ≤ max 1 (min limit 200) ∧ max 1 (min limit 200) ≤ 200 ∧
    (limit < 1 → max 1 (min limit 200) = 1) ∧
    (200 < limit → max 1 (min limit 200) = 200) ∧
    (1 ≤ limit → limit ≤ 200 → max 1 (min limit 200) = limit) := by
  refine ⟨?_, ?_, ?_, ?_, ?_, ?_, ?_⟩
  · cases h : env.scanItems <;> simp [list_customers, h]
  all_goals omega

/-- C4 witness: a requested limit of 500 scans with 200. -/
theorem list_clamps_limit_witness :
    (list_customers env0 500).2 = [200] := by
  have h := list_clamps_limit env0 500
  exact h.1

/-- C5: any store failure during create (after validation) or during list
produces status 500 with exactly the generic body; the response does not
depend on the underlying error detail, so two distinct store errors are
indistinguishable to the caller — the detail never reaches the body. -/
theorem store_failure_generic (env : Env) (kvs : Item) (msg msg2 : String)
    (limit : Int)
    (h1 : containsKey kvs "name" = true) (h2 : containsKey kvs "email" = true)
    (h3 : containsKey kvs "company" = true) :
    (env.putResult = .error msg →
      create_customer env (.dict kvs) =
        .ok (⟨500, Option.none,
          some "\x7b\"error\": \"Internal server error\"\x7d"⟩, []) ∧
      create_customer { env with putResult := .error msg } (.dict kvs) =
        create_customer { env with putResult := .error msg2 } (.dict kvs)) ∧
    (env.scanItems = .error msg →
      list_customers env limit =
        (⟨500, Option.none,
          some "\x7b\"error\": \"Internal server error\"\x7d"⟩,
         [max 1 (min limit 200)]) ∧
      list_customers { env with scanItems := .error msg } limit =
        list_customers { env with scanItems := .error msg2 } limit) := by
  constructor
  · intro hput
    constructor
    · exact create_put_error env kvs msg h1 h2 h3 hput
    · rw [create_put_error { env with putResult := .error msg } kvs msg
          h1 h2 h3 rfl,
        create_put_error { env with putResult := .error msg2 } kvs msg2
          h1 h2 h3 rfl]
  · intro _hscan
    constructor
    · exact list_scan_error env msg limit _hscan
    · rw [list_scan_error { env with scanItems := .error msg } msg limit rfl,
        list_scan_error { env with scanItems := .error msg2 } msg2 limit rfl]

/-- C5 witness: a put failure with a concrete AWS error detail yields the
generic 500 and an empty put trace. -/
theorem store_failure_generic_witness :
    create_customer { env0 with putResult := .error "AccessDeniedException" }
        (.dict sampleData) =
      .ok (⟨500, Option.none,
        some "\x7b\"error\": \"Internal server error\"\x7d"⟩, []) := by
  have h := store_failure_generic
    { env0 with putResult := .error "AccessDeniedException" }
    sampleData "AccessDeniedException" "ThrottlingException" 50 rfl rfl rfl
  exact (h.1 rfl).1

theorem create_env_congr (env env2 : Env)
    (hts : ttlDaysOf env = ttlDaysOf env2)
    (hu : env.utcNowSec = env2.utcNowSec)
    (hs : env.nowStamp = env2.nowStamp)
    (hi : env.nowIso = env2.nowIso)
    (hp : env.putResult = env2.putResult)
    (data : PyVal) :
    create_customer env data = create_customer env2 data := by
  unfold create_customer create_customer_core applyExpires expiresAtOf
    metaFields custId
  rw [hts, hu, hs, hi, hp]

/-- C10: a `TTL_DAYS` configuration that is absent, a negative integer
string, or an unparseable string never makes create fail and changes
nothing else: the call behaves exactly as with the variable unset, so in
particular no `expires_at` field is added. -/
theorem create_ttl_robust (env : Env) (data : PyVal)
    (h : env.ttlEnv = Option.none ∨
      ∃ s, env.ttlEnv = some s ∧
        (pyInt s = Option.none ∨ ∃ d, pyInt s = some d ∧ d ≤ 0)) :
    create_customer env data =
      create_customer { env with ttlEnv := Option.none } data := by
  have h0 : ttlDaysOf env = 0 := by
    rcases h with h | ⟨s, hs, h | ⟨d, hd, hle⟩⟩
    · simp [ttlDaysOf, h]
    · simp [ttlDaysOf, hs, h]
    · simp only [ttlDaysOf, hs, hd]
      exact max_eq_left hle
  exact create_env_congr env { env with ttlEnv := Option.none }
    (by rw [h0]; rfl) rfl rfl rfl rfl data

/-- C10 witness: `TTL_DAYS = "-3"` behaves exactly like an unset
variable. -/
theorem create_ttl_robust_witness :
    create_customer { env0 with ttlEnv := some "-3" } (.dict sampleData) =
      create_customer
        { { env0 with ttlEnv := some "-3" } with ttlEnv := Option.none }
        (.dict sampleData) :=
  create_ttl_robust _ _ (Or.inr ⟨"-3", rfl, Or.inr ⟨-3, rfl, by decide⟩⟩)

/-- C2 counterexample: with a positive TTL configured (a configuration the
spec itself supports), the single record put is not equal to the input
merged with only `customer_id`, `created_at`, `status`: the put record
carries an `expires_at` key that the three-field merge lacks. -/
theorem create_exact_merge_counterexample :
    create_customer { env0 with ttlEnv := some "1" } (.dict sampleData) =
      .ok (⟨201, Option.none,
        some "\x7b\"message\": \"Customer created successfully\", \"customer_id\": \"cust_20250314150926\"\x7d"⟩,
        [cexPutItem]) ∧
    containsKey cexPutItem "expires_at" = true ∧
    containsKey (dictUpdate sampleData
      (metaFields { env0 with ttlEnv := some "1" })) "expires_at" = false :=
  ⟨rfl, rfl, rfl⟩

/-- C2 (amended): for every input mapping with all three required keys,
when the put succeeds, create returns 201 with the confirmation message
and the generated identifier; that identifier is `cust_` followed by
exactly 14 decimal digits; and the single record put to the store is the
input merged with `customer_id`, `created_at`, `status == "active"`, plus
`expires_at` exactly when a positive TTL is configured (claim C3).  The
`datetime` validity hypothesis records the field ranges under which the
zero-padded model of `strftime('%Y%m%d%H%M%S')` is exact. -/
theorem create_valid_record (env : Env) (kvs : Item)
    (_hv : env.nowStamp.Valid)
    (h1 : containsKey kvs "name" = true) (h2 : containsKey kvs "email" = true)
    (h3 : containsKey kvs "company" = true)
    (hput : env.putResult = .ok ()) :
    create_customer env (.dict kvs) =
      .ok (⟨201, Option.none, some (createdBody env)⟩,
        [applyExpires env (dictUpdate kvs (metaFields env))]) ∧
    custId env.nowStamp = "cust_" ++ strftimeStamp env.nowStamp ∧
    (strftimeStamp env.nowStamp).length = 14 ∧
    (strftimeStamp env.nowStamp).data.all Char.isDigit = true := by
  refine ⟨?_, rfl, strftimeStamp_length _, strftimeStamp_digits _⟩
  rw [create_valid_eq env kvs h1 h2 h3 hput, successBody_custId]

/-- C2 witness: the sample record under `env0` is created with a 201, the
pattern-conforming identifier, and the merged record is put once. -/
theorem create_valid_record_witness :
    create_customer env0 (.dict sampleData) =
      .ok (⟨201, Option.none,
        some "\x7b\"message\": \"Customer created successfully\", \"customer_id\": \"cust_20250314150926\"\x7d"⟩,
        [[("name", .str "Ada Lovelace"), ("email", .str "ada@example.com"),
          ("company", .str "Analytical Engines"),
          ("customer_id", .str "cust_20250314150926"),
          ("created_at", .str "2025-03-14T15:09:26"),
          ("status", .str "active")]]) ∧
    (strftimeStamp env0.nowStamp).length = 14 := by
  have h := create_valid_record env0 sampleData (by decide) rfl rfl rfl rfl
  exact ⟨h.1, h.2.2.1⟩

/-- C3 counterexample: with TTL absent, the persisted record can still
contain `expires_at` — create never removes a caller-supplied
`expires_at` key, so the claim's "contains no `expires_at` field" fails
on such an input. -/
theorem expires_at_passthrough_counterexample :
    env0.ttlEnv = Option.none ∧
    create_customer env0 (.dict expData) =
      .ok (⟨201, Option.none,
        some "\x7b\"message\": \"Customer created successfully\", \"customer_id\": \"cust_20250314150926\"\x7d"⟩,
        [expPutItem]) ∧
    containsKey expPutItem "expires_at" = true :=
  ⟨rfl, rfl, rfl⟩

/-- C3 (amended): for a create call on a valid record with a successful
put: when the TTL configuration parses to `d > 0`, the persisted record's
`expires_at` equals the epoch-second clock read plus `d * 86400`
(overwriting any caller-supplied value); when the TTL is absent or parses
to `0`, create adds no `expires_at`, so the persisted record carries one
exactly when the input already did. -/
theorem create_expires_policy (env : Env) (kvs : Item)
    (h1 : containsKey kvs "name" = true) (h2 : containsKey kvs "email" = true)
    (h3 : containsKey kvs "company" = true)
    (hput : env.putResult = .ok ()) :
    (∀ s d, env.ttlEnv = some s → pyInt s = some d → 0 < d →
      create_customer env (.dict kvs) =
        .ok (⟨201, Option.none, some (createdBody env)⟩,
          [setKV (dictUpdate kvs (metaFields env)) "expires_at"
            (.int (env.utcNowSec + d * 86400))]) ∧
      dictGet (setKV (dictUpdate kvs (metaFields env)) "expires_at"
          (.int (env.utcNowSec + d * 86400))) "expires_at" =
        some (.int (env.utcNowSec + d * 86400))) ∧
    ((env.ttlEnv = Option.none ∨
        ∃ s, env.ttlEnv = some s ∧ pyInt s = some 0) →
      create_customer env (.dict kvs) =
        .ok (⟨201, Option.none, some (createdBody env)⟩,
          [dictUpdate kvs (metaFields env)]) ∧
      containsKey (dictUpdate kvs (metaFields env)) "expires_at" =
        containsKey kvs "expires_at") := by
  constructor
  · intro s d hs hd hpos
    have httl : ttlDaysOf env = d := by
      simp only [ttlDaysOf, hs, hd]
      exact max_eq_right hpos.le
    have hexp : expiresAtOf env = some (env.utcNowSec + d * 86400) := by
      simp [expiresAtOf, httl, hpos]
    constructor
    · rw [create_valid_eq env kvs h1 h2 h3 hput, successBody_custId]
      simp [applyExpires, hexp]
    · exact dictGet_setKV_self _ _ _
  · intro hz
    have httl : ttlDaysOf env = 0 := by
      rcases hz with hz | ⟨s, hs, hp0⟩
      · simp [ttlDaysOf, hz]
      · simp [ttlDaysOf, hs, hp0]
    have hexp : expiresAtOf env = Option.none := by
      simp [expiresAtOf, httl]
    constructor
    · rw [create_valid_eq env kvs h1 h2 h3 hput, successBody_custId]
      simp [applyExpires, hexp]
    · exact containsKey_update_meta env kvs "expires_at"
        (by decide) (by decide) (by decide)

/-- C3 witness: with `TTL_DAYS = "2"`, the sample record is persisted with
`expires_at = 1700000000 + 2 * 86400`. -/
theorem create_expires_policy_witness :
    create_customer { env0 with ttlEnv := some "2" } (.dict sampleData) =
      .ok (⟨201, Option.none,
        some "\x7b\"message\": \"Customer created successfully\", \"customer_id\": \"cust_20250314150926\"\x7d"⟩,
        [[("name", .str "Ada Lovelace"), ("email", .str "ada@example.com"),
          ("company", .str "Analytical Engines"),
          ("customer_id", .str "cust_20250314150926"),
          ("created_at", .str "2025-03-14T15:09:26"),
          ("status", .str "active"),
          ("expires_at", .int 1700172800)]]) := by
  have h := (create_expires_policy { env0 with ttlEnv := some "2" }
    sampleData rfl rfl rfl rfl).1 "2" 2 rfl rfl (by decide)
  exact h.1

/-- C6: with the config lookup succeeding (a failing lookup is the
separately specified 500 path, resolved before any routing), every event
whose method/path combination matches none of the handled cases — not
`OPTIONS`, not `GET`, and not `POST` to a normalized path starting with
`/customers` — receives status 405 with exactly the
`Method not allowed` JSON body. -/
theorem method_not_allowed (env : Env) (event : Event) (tbl : String)
    (hssm : env.ssmTable = .ok tbl)
    (hopt : event.httpMethod.getD "" ≠ "OPTIONS")
    (hget : event.httpMethod.getD "" ≠ "GET")
    (hpost : ¬(event.httpMethod.getD "" = "POST" ∧
      strStartsWith (normalizePath (event.path.getD "/")) "/customers" =
        true)) :
    lambda_handler env event =
      .ok ⟨405, some jsonHeaders,
        some "\x7b\"error\": \"Method not allowed\"\x7d"⟩ := by
  simp only [lambda_handler, handlerCore, hssm]
  rw [if_neg hopt, if_neg hpost, if_neg (fun hh => hget hh.1), if_neg hget]
  rfl

/-- C6 witness: `PUT /customers` gets the 405 response. -/
theorem method_not_allowed_witness :
    lambda_handler env0
        ⟨some "PUT", some "/customers", Option.none, Option.none⟩ =
      .ok ⟨405, some jsonHeaders,
        some "\x7b\"error\": \"Method not allowed\"\x7d"⟩ :=
  method_not_allowed env0 _ "customers-table" rfl (by decide) (by decide)
    (by decide)

/-- C7: with the config lookup succeeding (it is resolved before the
method check; its failure is the separately specified 500 path), every
event with method `OPTIONS`, whatever its path, receives status 200 with
exactly the three fixed CORS headers and no body. -/
theorem options_preflight (env : Env) (event : Event) (tbl : String)
    (hssm : env.ssmTable = .ok tbl)
    (hm : event.httpMethod.getD "" = "OPTIONS") :
    lambda_handler env event = .ok ⟨200, some base_headers, Option.none⟩ := by
  simp only [lambda_handler, handlerCore, hssm]
  rw [if_pos hm]

/-- C7 witness: `OPTIONS /anything` gets the bare CORS 200. -/
theorem options_preflight_witness :
    lambda_handler env0
        ⟨some "OPTIONS", some "/anything", Option.none, Option.none⟩ =
      .ok ⟨200, some base_headers, Option.none⟩ :=
  options_preflight env0 _ "customers-table" rfl rfl

theorem handler_norm_congr (env : Env) (m : Option String)
    (q : Option (List (String × String))) (b : Option String) (p1 p2 : String)
    (h : normalizePath p1 = normalizePath p2) :
    lambda_handler env ⟨m, some p1, q, b⟩ =
      lambda_handler env ⟨m, some p2, q, b⟩ := by
  simp only [lambda_handler, handlerCore, Option.getD_some]
  rw [h]

/-- C8: for each stage name `dev`, `staging`, `prod`, an event for
`/{stage}/customers` receives — with the same method (`GET` or `POST`),
query parameters, body, configuration and store state — exactly the same
response as the event for `/customers`: the stage prefix is stripped
before routing. -/
theorem stage_strip_equiv (env : Env) (m : String)
    (q : Option (List (String × String))) (b : Option String)
    (_hm : m = "GET" ∨ m = "POST") :
    lambda_handler env ⟨some m, some "/dev/customers", q, b⟩ =
      lambda_handler env ⟨some m, some "/customers", q, b⟩ ∧
    lambda_handler env ⟨some m, some "/staging/customers", q, b⟩ =
      lambda_handler env ⟨some m, some "/customers", q, b⟩ ∧
    lambda_handler env ⟨some m, some "/prod/customers", q, b⟩ =
      lambda_handler env ⟨some m, some "/customers", q, b⟩ :=
  ⟨handler_norm_congr env (some m) q b _ _ rfl,
   handler_norm_congr env (some m) q b _ _ rfl,
   handler_norm_congr env (some m) q b _ _ rfl⟩

/-- C8 witness: `GET /dev/customers` and `GET /customers` coincide on the
concrete benign environment. -/
theorem stage_strip_equiv_witness :
    lambda_handler env0
        ⟨some "GET", some "/dev/customers", Option.none, Option.none⟩ =
      lambda_handler env0
        ⟨some "GET", some "/customers", Option.none, Option.none⟩ :=
  (stage_strip_equiv env0 "GET" Option.none Option.none (Or.inl rfl)).1

theorem jsonLoads_error_eq (s : String) (e : PyErr)
    (h : jsonLoads s = .error e) : e = jsonErr := by
  unfold jsonLoads at h
  cases hp : parseJVal (s.data.length + 1) s.data with
  | none =>
      simp only [hp] at h
      injection h with hh
      exact hh.symm
  | some pr =>
      obtain ⟨v, rest⟩ := pr
      cases hr : jsonWsDrop rest with
      | nil =>
          simp only [hp, hr] at h
          exact Except.noConfusion h
      | cons c cs =>
          simp only [hp, hr] at h
          injection h with hh
          exact hh.symm

/-- C9 counterexample: the body `"null"` is a well-formed JSON document,
yet `POST /customers` with it raises a `TypeError` inside the membership
test of the validation comprehension, which neither `except ValueError`
nor `except ClientError` catches — the exception escapes the handler
instead of being mapped to a 400 or 500 response. -/
theorem dispatch_unhandled_counterexample :
    lambda_handler env0
        ⟨some "POST", some "/customers", Option.none, some "null"⟩ =
      .error .typeError := rfl

/-- C9 (amended): for every event whose body is absent, fails to parse as
JSON, or parses to a JSON object — or which is not a `POST` to a
normalized `/customers` path at all — the dispatcher returns a response
(never lets an exception escape), with status among 200, 201, 400, 405,
500; a `POST /customers` body parsing to a non-object JSON value can
instead raise an uncaught `TypeError`/`AttributeError`. -/
theorem dispatch_no_escape (env : Env) (event : Event)
    (hbody : (∀ v, jsonLoads (event.body.getD "\x7b\x7d") = .ok v →
        ∃ kvs, v = PyVal.dict kvs) ∨
      ¬(event.httpMethod.getD "" = "POST" ∧
        strStartsWith (normalizePath (event.path.getD "/")) "/customers" =
          true)) :
    ∃ r, lambda_handler env event = .ok r ∧
      r.statusCode ∈ ([200, 201, 400, 405, 500] : List Nat) := by
  simp only [lambda_handler, handlerCore]
  cases hssm : env.ssmTable with
  | error msg => exact ⟨_, rfl, by decide⟩
  | ok tbl =>
    by_cases hopt : event.httpMethod.getD "" = "OPTIONS"
    · rw [if_pos hopt]
      exact ⟨_, rfl, by decide⟩
    · rw [if_neg hopt]
      by_cases hpost : event.httpMethod.getD "" = "POST" ∧
          strStartsWith (normalizePath (event.path.getD "/")) "/customers" =
            true
      · rw [if_pos hpost]
        cases hload : jsonLoads (event.body.getD "\x7b\x7d") with
        | error e =>
            have he : e = jsonErr := jsonLoads_error_eq _ _ hload
            subst he
            exact ⟨_, rfl, by decide⟩
        | ok v =>
            rcases hbody with hb | hb
            · obtain ⟨kvs, rfl⟩ := hb v hload
              obtain ⟨r, ps, hcr, hst⟩ := create_dict_result env kvs
              simp only [hcr]
              refine ⟨_, rfl, ?_⟩
              rcases hst with h | h | h <;> simp [h]
            · exact absurd hpost hb
      · rw [if_neg hpost]
        by_cases hgetc : event.httpMethod.getD "" = "GET" ∧
            strStartsWith (normalizePath (event.path.getD "/")) "/customers" =
              true
        · rw [if_pos hgetc]
          refine ⟨_, rfl, ?_⟩
          rcases list_status env
              ((pyInt (qsGet (event.queryStringParameters.getD [])
                "limit" "50")).getD 50) with h | h <;>
            simp [h]
        · rw [if_neg hgetc]
          by_cases hget : event.httpMethod.getD "" = "GET"
          · rw [if_pos hget]
            exact ⟨_, rfl, by decide⟩
          · rw [if_neg hget]
            exact ⟨_, rfl, by decide⟩

/-- C9 witness: a `GET /` event (empty default body) is answered with an
in-range status. -/
theorem dispatch_no_escape_witness :
    ∃ r, lambda_handler env0
        ⟨some "GET", some "/", Option.none, Option.none⟩ = .ok r ∧
      r.statusCode ∈ ([200, 201, 400, 405, 500] : List Nat) :=
  dispatch_no_escape env0
    ⟨some "GET", some "/", Option.none, Option.none⟩ (Or.inr (by decide))
